import Mathlib

/-!
Verification of the fallback/resilience orchestration core of the
Demo_Back repository (`app/fallback_orchestrator.py`, `app/fallback_ai.py`,
`app/fallback_config.py`, `app/models.py`).

The Python code is shallowly embedded: stateful methods become explicit
state-passing functions on an `Orchestrator` record, `raise`/`except`
becomes `Except String` (an exception is represented by its message, since
the orchestrator classifies errors by substring search over `str(error)`),
and `time.time()` becomes an explicit integer-valued `now` parameter
(the logic only compares clock differences against the 60-second window,
so the clock's granularity is irrelevant).

`AgentResponseModel` is a pydantic `BaseModel` whose `analysis` and
`supporting_data` fields are declared `Dict[str, Any]` /
`Optional[Dict[str, Any]]`; pydantic validates every construction and
rejects a `str` for a dict-typed field.  The embedding models
construction as the fallible `mkAgentResponseModel`, with the argument
domain `PyVal` distinguishing the dict and string payloads this code
base passes (dict values themselves are abstracted to strings, as the
orchestration logic never inspects them).  The fallback layer passes
strings for these fields everywhere — emergency synthesis, rule-based,
cached and the hybrid combiner — so those constructions always raise,
which several claims turn on.  The request `context` dict is passed
through opaquely and is a type parameter `Ctx`.
-/

namespace DemoBack

/-- `AgentType` enum from `app/models.py`: the six fixed role identifiers. -/
inductive AgentType where
  | product_manager
  | engineer
  | designer
  | market_researcher
  | risk_analyst
  | customer_researcher
deriving DecidableEq, Repr

/-- Coercion `AgentType(agent_type)` from a string, as Python's
`AgentType(value)` does for a `str`-valued enum; raises `ValueError`
(modelled as `.error`) for a string outside the six role values. -/
def AgentType.ofString : String → Except String AgentType
  | "product_manager" => .ok .product_manager
  | "engineer" => .ok .engineer
  | "designer" => .ok .designer
  | "market_researcher" => .ok .market_researcher
  | "risk_analyst" => .ok .risk_analyst
  | "customer_researcher" => .ok .customer_researcher
  | s => .error ("invalid agent type: " ++ s)

/-- A Python value passed into a `Dict[str, Any]`-typed pydantic field in
this code base: either an actual dict (entries abstracted to string
key/value pairs, never inspected) or a plain string.  Pydantic accepts
the former and raises `ValidationError` on the latter. -/
inductive PyVal where
  | dict (entries : List (String × String))
  | str (s : String)
deriving DecidableEq, Repr

/-- `AgentResponseModel` from `app/models.py`, as pydantic validation
leaves it: `analysis : Dict[str, Any]` and
`supporting_data : Optional[Dict[str, Any]]` (dict values abstracted to
strings), `confidence_score` (a Python float) as a rational. -/
structure AgentResponseModel where
  agent_type : AgentType
  analysis : List (String × String)
  recommendations : List String
  concerns : List String
  confidence_score : ℚ
  reasoning : String
  supporting_data : Option (List (String × String))
deriving DecidableEq, Repr

/-- The message of the pydantic `ValidationError` raised when a string is
passed for a `Dict[str, Any]`-typed field. -/
def pydanticValidationErrorMsg : String :=
  "ValidationError: value is not a valid dict"

/-- Pydantic construction `AgentResponseModel(...)`: validates the
dict-typed fields; a string payload for `analysis` or `supporting_data`
raises `ValidationError`.  (The string lists, the float and the
`reasoning` string validate trivially in this code base.) -/
def mkAgentResponseModel (agent_type : AgentType) (analysis : PyVal)
    (recommendations concerns : List String) (confidence_score : ℚ)
    (reasoning : String) (supporting_data : Option PyVal) :
    Except String AgentResponseModel :=
  match analysis with
  | .str _ => .error pydanticValidationErrorMsg
  | .dict d =>
    match supporting_data with
    | some (.str _) => .error pydanticValidationErrorMsg
    | some (.dict d2) =>
      .ok { agent_type := agent_type, analysis := d,
            recommendations := recommendations, concerns := concerns,
            confidence_score := confidence_score, reasoning := reasoning,
            supporting_data := some d2 }
    | none =>
      .ok { agent_type := agent_type, analysis := d,
            recommendations := recommendations, concerns := concerns,
            confidence_score := confidence_score, reasoning := reasoning,
            supporting_data := none }

/-- `FallbackState` enum from `app/fallback_orchestrator.py`. -/
inductive FallbackState where
  | primary
  | fallback
  | degraded
  | emergency
deriving DecidableEq, Repr

/-- `FallbackStrategy` enum from `app/fallback_config.py`. -/
inductive FallbackStrategy where
  | openai
  | local_llm
  | rule_based
  | cached_responses
  | hybrid
deriving DecidableEq, Repr

/-- `FallbackConfig.FALLBACK_ORDER` from `app/fallback_config.py`. -/
def FALLBACK_ORDER : List FallbackStrategy :=
  [.openai, .rule_based, .cached_responses, .hybrid]

/-- `FALLBACK_TRIGGERS["api_error_threshold"]` from `app/fallback_config.py`. -/
def api_error_threshold : Nat := 3

/-- `FALLBACK_QUALITY["confidence_penalty"]` (= 0.2) from `app/fallback_config.py`. -/
def confidence_penalty : ℚ := 1/5

/-- Character-list version of Python's `needle in hay` prefix step. -/
def charsStartWith : List Char → List Char → Bool
  | [], _ => true
  | _ :: _, [] => false
  | a :: as, b :: bs => a == b && charsStartWith as bs

/-- Character-list version of Python's substring test `needle in hay`. -/
def charsContain (needle : List Char) : List Char → Bool
  | [] => charsStartWith needle []
  | c :: rest => charsStartWith needle (c :: rest) || charsContain needle rest

/-- Python's `needle in hay` on strings. -/
def strContains (hay needle : String) : Bool :=
  charsContain needle.toList hay.toList

/-- ASCII lowering of one character (the error vocabulary the
orchestrator searches for is plain ASCII). -/
def lowerChar (c : Char) : Char :=
  if 'A' ≤ c ∧ c ≤ 'Z' then Char.ofNat (c.toNat + 32) else c

/-- Python's `str.lower()` restricted to ASCII case folding. -/
def strLower (s : String) : String :=
  ⟨s.data.map lowerChar⟩

/-- Per-method usage counters from `_track_fallback_usage`. -/
structure UsageStats where
  total_attempts : Nat
  successful_attempts : Nat
  last_used : Option ℤ
deriving DecidableEq, Repr

/-- A registered fallback method as the orchestrator sees it
(duck-typed in Python: anything with `is_available`, `generate_response`
and `get_confidence_score`).  `generate` models
`generate_response(agent_type, product_idea, context)`: `.error msg`
models the coroutine raising with message `msg`. -/
structure FallbackMethod (Ctx : Type) where
  name : String
  available : Bool
  generate : String → String → Option Ctx → Except String AgentResponseModel
  confidence : ℚ

/-- Mutable fields of `FallbackOrchestrator`.  `fallback_methods` is the
insertion-ordered dict keyed by `FallbackStrategy`; `fallback_usage_stats`
the insertion-ordered dict keyed by method class name. -/
structure Orchestrator (Ctx : Type) where
  state : FallbackState
  fallback_methods : List (FallbackStrategy × FallbackMethod Ctx)
  error_count : Nat
  last_error_time : ℤ
  fallback_usage_stats : List (String × UsageStats)

/-- `FallbackOrchestrator.should_use_fallback(error)`: decides whether to
fail over and (in the source) mutates `state`, `error_count` and
`last_error_time` in place; here the updated orchestrator is returned
alongside the boolean.  `now` is the value of `time.time()`. -/
def should_use_fallback {Ctx : Type} (o : Orchestrator Ctx)
    (error : Option String) (now : ℤ) : Bool × Orchestrator Ctx :=
  -- Check error threshold
  if o.error_count ≥ api_error_threshold then (true, o)
  -- Check if we're already in fallback mode
  else if o.state ≠ .primary then (true, o)
  else
    match error with
    | none => (false, o)
    | some e =>
      let error_str := strLower e
      -- Rate limiting
      if strContains error_str "rate limit" || strContains error_str "quota" then
        (true, { o with state := .fallback })
      -- API errors
      else if strContains error_str "timeout" || strContains error_str "connection" then
        let ec := if now - o.last_error_time < 60 then o.error_count + 1 else 1
        let o' := { o with error_count := ec, last_error_time := now }
        if ec ≥ api_error_threshold then (true, { o' with state := .fallback })
        else (false, o')
      else (false, o)

/-- Dict membership/lookup `self.fallback_methods[strategy]`. -/
def lookupMethod {Ctx : Type} (ms : List (FallbackStrategy × FallbackMethod Ctx))
    (k : FallbackStrategy) : Option (FallbackMethod Ctx) :=
  (ms.find? (fun p => p.1 = k)).map (·.2)

/-- The preference loop of `get_fallback_method`: first strategy in the
given order that is registered and reports `is_available()`. -/
def findPreferred {Ctx : Type} (ms : List (FallbackStrategy × FallbackMethod Ctx)) :
    List FallbackStrategy → Option (FallbackMethod Ctx)
  | [] => none
  | s :: rest =>
    match lookupMethod ms s with
    | some m => if m.available then some m else findPreferred ms rest
    | none => findPreferred ms rest

/-- `FallbackOrchestrator.get_fallback_method(agent_type)` (the
`agent_type` argument is unused in the source as well). -/
def get_fallback_method {Ctx : Type} (ms : List (FallbackStrategy × FallbackMethod Ctx))
    (_agent_type : String) : Option (FallbackMethod Ctx) :=
  if ms.isEmpty then none
  else
    match findPreferred ms FALLBACK_ORDER with
    | some m => some m
    | none =>
      -- If no preferred methods available, return any available method
      (ms.map (·.2)).find? (·.available)

/-- `FallbackOrchestrator._track_fallback_usage(method_name, success)`,
with `now` for `time.time()`. -/
def track_fallback_usage (stats : List (String × UsageStats)) (method_name : String)
    (success : Bool) (now : ℤ) : List (String × UsageStats) :=
  let bump : UsageStats → UsageStats := fun s =>
    { total_attempts := s.total_attempts + 1,
      successful_attempts := s.successful_attempts + (if success then 1 else 0),
      last_used := some now }
  if stats.any (fun p => p.1 == method_name) then
    stats.map (fun p => if p.1 == method_name then (p.1, bump p.2) else p)
  else
    stats ++ [(method_name, bump { total_attempts := 0, successful_attempts := 0, last_used := none })]

/-- The `reasoning` text of the emergency response. -/
def emergencyReasoning : String :=
  "Emergency fallback response - system experiencing issues"

/-- `FallbackOrchestrator._execute_emergency_fallback`: sets
`self.state = EMERGENCY`, then calls the `AgentResponseModel`
constructor.  The `AgentType(agent_type)` coercion (evaluated first)
raises for a string outside the six roles; for the six roles the
construction itself always raises `ValidationError`, because the code
passes a plain string for `analysis` and for `supporting_data`
(`"emergency_mode"`) where the model declares `Dict[str, Any]`.  The
state mutation survives either way. -/
def execute_emergency_fallback {Ctx : Type} (o : Orchestrator Ctx)
    (agent_type : String) (product_idea : String) (_context : Option Ctx) :
    Orchestrator Ctx × Except String AgentResponseModel :=
  let o1 := { o with state := .emergency }
  match AgentType.ofString agent_type with
  | .error e => (o1, .error e)
  | .ok t =>
    (o1, mkAgentResponseModel t
      (.str ("Emergency analysis for " ++ agent_type ++ ": " ++ product_idea.take 100 ++ "..."))
      ["Contact support", "Try again later", "Check system status"]
      ["System degraded", "Limited functionality"]
      (1/10) emergencyReasoning (some (.str "emergency_mode")))

/-- `FallbackOrchestrator._execute_fallback`: picks a method, runs it,
prefixes the fallback marker on success, and on a method failure falls
through to the emergency synthesis.  The `.error` result models the
`RuntimeError("No fallback methods available")` raised before the
`try` block (and the emergency constructor raising, which also
propagates out of this method). -/
def execute_fallback {Ctx : Type} (o : Orchestrator Ctx)
    (agent_type : String) (product_idea : String) (context : Option Ctx) (now : ℤ) :
    Orchestrator Ctx × Except String AgentResponseModel :=
  match get_fallback_method o.fallback_methods agent_type with
  | none => (o, .error "No fallback methods available")
  | some m =>
    match m.generate agent_type product_idea context with
    | .ok response =>
      let o1 := { o with
        fallback_usage_stats := track_fallback_usage o.fallback_usage_stats m.name true now }
      (o1, .ok { response with reasoning := "[FALLBACK] " ++ response.reasoning })
    | .error _ =>
      let o1 := { o with
        fallback_usage_stats := track_fallback_usage o.fallback_usage_stats m.name false now }
      execute_emergency_fallback o1 agent_type product_idea context

/-- `FallbackOrchestrator.execute_with_fallback`.  `primary` is the
outcome of awaiting `primary_func(*args, **kwargs)` (`.error e` models
it raising with message `e`).  The whole body sits in a `try` whose
`except` clause runs `_execute_emergency_fallback` once more; an error
from that final emergency attempt propagates to the caller. -/
def execute_with_fallback {Ctx : Type} (o : Orchestrator Ctx)
    (primary : Except String AgentResponseModel)
    (agent_type : String) (product_idea : String) (context : Option Ctx) (now : ℤ) :
    Orchestrator Ctx × Except String (AgentResponseModel × Bool) :=
  -- helper for the outer `except`: one more emergency attempt
  let outerExcept : Orchestrator Ctx → Orchestrator Ctx × Except String (AgentResponseModel × Bool) :=
    fun oc =>
      let em := execute_emergency_fallback oc agent_type product_idea context
      (em.1, em.2.map (fun r => (r, true)))
  if o.state = .primary then
    match primary with
    | .ok response =>
      -- Reset error count on success
      ({ o with error_count := 0 }, .ok (response, false))
    | .error e =>
      let sf := should_use_fallback o (some e) now
      if sf.1 then
        let ef := execute_fallback sf.2 agent_type product_idea context now
        match ef.2 with
        | .ok r => (ef.1, .ok (r, true))
        | .error _ => outerExcept ef.1
      else
        -- `raise` — re-raised primary error is caught by the outer `except`
        outerExcept sf.2
  else
    -- Already in fallback mode
    let ef := execute_fallback o agent_type product_idea context now
    match ef.2 with
    | .ok r => (ef.1, .ok (r, true))
    | .error _ => outerExcept ef.1

/-- `FallbackOrchestrator.reset_to_primary()`. -/
def reset_to_primary {Ctx : Type} (o : Orchestrator Ctx) : Orchestrator Ctx :=
  { o with state := .primary, error_count := 0, last_error_time := 0 }

/-- One orchestrator operation, for stating properties of operation
sequences. -/
inductive OrchOp (Ctx : Type) where
  | execOp (primary : Except String AgentResponseModel)
      (agent_type product_idea : String) (context : Option Ctx) (now : ℤ)
  | shouldOp (error : Option String) (now : ℤ)
  | resetOp

/-- State effect of one orchestrator operation. -/
def applyOp {Ctx : Type} (o : Orchestrator Ctx) : OrchOp Ctx → Orchestrator Ctx
  | .execOp primary agent idea ctx now =>
    (execute_with_fallback o primary agent idea ctx now).1
  | .shouldOp err now => (should_use_fallback o err now).2
  | .resetOp => reset_to_primary o

/-! ## Strategy implementations (`app/fallback_ai.py`) -/

/-- `OpenAIFallback.is_available`: true iff the client was set up, i.e.
the `OPENAI_API_KEY` environment variable was present. -/
def OpenAIFallback.is_available (client_present : Bool) : Bool := client_present

/-- `RuleBasedFallback.is_available` — always `True`. -/
def RuleBasedFallback.is_available : Bool := true

/-- `CachedResponsesFallback.is_available` — always `True`. -/
def CachedResponsesFallback.is_available : Bool := true

/-- `HybridFallback.is_available`: any wrapped method available. -/
def HybridFallback.is_available {Ctx : Type} (methods : List (FallbackMethod Ctx)) : Bool :=
  methods.any (·.available)

/-- `FallbackConfig.HYBRID_CONFIG["max_sources"]`. -/
def max_sources : Nat := 3

/-- The message of the `TypeError` raised by `". ".join` over a list
whose items are dicts rather than strings. -/
def pyJoinTypeErrorMsg : String :=
  "TypeError: sequence item 0: expected str instance, dict found"

/-- `HybridFallback._combine_responses(responses, agent_type)`.
`dr` and `dc` stand for the `list(set(...))` enumerations used for
recommendations and concerns.  Indexing `responses[0]` on an empty list
raises.  With two or more responses the method can never return: the
responses' `analysis` fields are dicts, so `". ".join(analysis_parts[:2])`
raises `TypeError` whenever any analysis is non-empty, and when every
analysis is empty the join yields the *string* `""`, which the
`AgentResponseModel` constructor then rejects with `ValidationError`
(its `analysis` field is `Dict[str, Any]`). -/
def combine_responses (dr dc : List String → List String) :
    List AgentResponseModel → Except String AgentResponseModel
  | [] => .error "IndexError: list index out of range"
  | [r] => .ok r
  | r0 :: r1 :: rest =>
    let responses := r0 :: r1 :: rest
    let analysis_parts := responses.filter (fun r => r.analysis ≠ [])
    if analysis_parts.take 2 ≠ [] then .error pyJoinTypeErrorMsg
    else
      let all_recommendations :=
        (responses.filter (fun r => r.recommendations ≠ [])).flatMap (·.recommendations)
      let combined_recommendations := (dr all_recommendations).take 3
      let all_concerns :=
        (responses.filter (fun r => r.concerns ≠ [])).flatMap (·.concerns)
      let combined_concerns := (dc all_concerns).take 2
      let total_confidence := (responses.map (·.confidence_score)).sum
      let avg_confidence := total_confidence / (responses.length : ℚ)
      mkAgentResponseModel r0.agent_type (.str "") combined_recommendations combined_concerns
        (avg_confidence * confidence_penalty)
        ("Combined from " ++ toString responses.length ++ " fallback sources") none

/-- `HybridFallback.generate_response`: run up to `max_sources` available
wrapped methods, tolerate individual failures, raise if none succeeded,
otherwise combine. -/
def hybrid_generate {Ctx : Type} (dr dc : List String → List String)
    (fallback_methods : List (FallbackMethod Ctx))
    (agent_type product_idea : String) (context : Option Ctx) :
    Except String AgentResponseModel :=
  let available_methods := fallback_methods.filter (·.available)
  if available_methods.isEmpty then .error "No fallback methods available"
  else
    let responses := (available_methods.take max_sources).filterMap
      (fun m => (m.generate agent_type product_idea context).toOption)
    if responses.isEmpty then .error "All fallback methods failed"
    else combine_responses dr dc responses

/-- The strings assembled by `RuleBasedFallback._generate_from_templates`
or `CachedResponsesFallback._generate_from_pattern` before the model
construction: keyword categorization and random sampling from the phrase
banks decide their content, so they enter as a parameter — their value
never matters, because the construction fails on the string `analysis`
payload regardless. -/
structure RenderedTemplate where
  analysis : String
  recommendations : List String
  concerns : List String

/-- `RuleBasedFallback.generate_response`: renders template text (the
`sample` parameter) and then constructs `AgentResponseModel` with the
joined analysis as a `str` and confidence `0.5 * penalty`.  For the six
role identifiers the construction always raises `ValidationError`; for
any other role string the `AgentType` coercion raises first.  The
method's own `except` clause re-raises, so the error escapes. -/
def rule_based_generate {Ctx : Type} (sample : RenderedTemplate)
    (agent_type _product_idea : String) (_context : Option Ctx) :
    Except String AgentResponseModel :=
  match AgentType.ofString agent_type with
  | .error e => .error e
  | .ok t =>
    mkAgentResponseModel t (.str sample.analysis)
      sample.recommendations sample.concerns
      ((1/2) * confidence_penalty)
      ("Generated using rule-based templates for " ++ agent_type) none

/-- `CachedResponsesFallback.generate_response`: renders the pattern
template (the `sample`/`pattern` parameters stand for the deterministic
keyword scoring and template text) and constructs with a `str` analysis,
a `str` `supporting_data` (the pattern name) and confidence
`0.4 * penalty` — the construction always raises `ValidationError` for
the six roles, and the role coercion raises first otherwise. -/
def cached_responses_generate {Ctx : Type} (sample : RenderedTemplate)
    (pattern : String) (agent_type _product_idea : String) (_context : Option Ctx) :
    Except String AgentResponseModel :=
  match AgentType.ofString agent_type with
  | .error e => .error e
  | .ok t =>
    mkAgentResponseModel t (.str sample.analysis)
      sample.recommendations sample.concerns
      ((2/5) * confidence_penalty)
      ("Generated from cached pattern: " ++ pattern) (some (.str pattern))

/-- `FallbackOrchestrator._initialize_fallback_methods`.  The OpenAI
strategy's network behaviour is abstracted into `openai_gen`; the
rule-based and cached strategies use their concrete (always-raising)
generators, with the randomness/categorization-dependent template text
as parameters.  Registration and availability follow the source: OpenAI
registered only when its client is present, rule-based and cached always
registered, hybrid registered when more than one method is available
(wrapping a snapshot of the currently available methods). -/
def init_fallback_methods {Ctx : Type} (openai_client_present : Bool)
    (openai_gen : String → String → Option Ctx → Except String AgentResponseModel)
    (rule_sample cached_sample : RenderedTemplate) (cached_pattern : String)
    (dr dc : List String → List String) :
    List (FallbackStrategy × FallbackMethod Ctx) :=
  let openaiM : FallbackMethod Ctx :=
    { name := "OpenAIFallback",
      available := OpenAIFallback.is_available openai_client_present,
      generate := openai_gen, confidence := 4/5 }
  let ms0 := if openaiM.available then [(FallbackStrategy.openai, openaiM)] else []
  let ruleM : FallbackMethod Ctx :=
    { name := "RuleBasedFallback", available := RuleBasedFallback.is_available,
      generate := rule_based_generate rule_sample, confidence := 1/2 }
  let ms1 := ms0 ++ [(FallbackStrategy.rule_based, ruleM)]
  let cachedM : FallbackMethod Ctx :=
    { name := "CachedResponsesFallback", available := CachedResponsesFallback.is_available,
      generate := cached_responses_generate cached_sample cached_pattern, confidence := 2/5 }
  let ms2 := ms1 ++ [(FallbackStrategy.cached_responses, cachedM)]
  let available_methods := (ms2.map (·.2)).filter (·.available)
  if available_methods.length > 1 then
    ms2 ++ [(FallbackStrategy.hybrid,
      { name := "HybridFallback",
        available := HybridFallback.is_available available_methods,
        generate := hybrid_generate dr dc available_methods,
        confidence := ((available_methods.map (·.confidence)).sum) /
          (available_methods.length : ℚ) })]
  else ms2

/-- `FallbackOrchestrator.__init__`. -/
def mk_orchestrator {Ctx : Type} (openai_client_present : Bool)
    (openai_gen : String → String → Option Ctx → Except String AgentResponseModel)
    (rule_sample cached_sample : RenderedTemplate) (cached_pattern : String)
    (dr dc : List String → List String) : Orchestrator Ctx :=
  { state := .primary,
    fallback_methods :=
      init_fallback_methods openai_client_present openai_gen rule_sample cached_sample
        cached_pattern dr dc,
    error_count := 0,
    last_error_time := 0,
    fallback_usage_stats := [] }

/-! ## Helper lemmas -/

theorem execute_emergency_fallback_fst {Ctx : Type} (o : Orchestrator Ctx)
    (a i : String) (c : Option Ctx) :
    (execute_emergency_fallback o a i c).1 = { o with state := .emergency } := by
  unfold execute_emergency_fallback
  cases AgentType.ofString a <;> rfl

/-- For the six role identifiers the emergency synthesis fails at the
`AgentResponseModel` construction with `ValidationError` (string
`analysis` and `supporting_data` payloads against `Dict[str, Any]`
fields). -/
theorem execute_emergency_fallback_msg {Ctx : Type} (o : Orchestrator Ctx)
    {a : String} (i : String) (c : Option Ctx) {t : AgentType}
    (h : AgentType.ofString a = .ok t) :
    (execute_emergency_fallback o a i c).2 = .error pydanticValidationErrorMsg := by
  unfold execute_emergency_fallback
  rw [h]
  rfl

/-- The emergency synthesis never returns a response: for a role string
outside the six identifiers the `AgentType` coercion raises, and for the
six identifiers pydantic validation raises. -/
theorem execute_emergency_fallback_raises {Ctx : Type} (o : Orchestrator Ctx)
    (a i : String) (c : Option Ctx) :
    (execute_emergency_fallback o a i c).2.isOk = false := by
  unfold execute_emergency_fallback
  cases AgentType.ofString a <;> rfl

theorem should_use_fallback_frame {Ctx : Type} (o : Orchestrator Ctx)
    (err : Option String) (now : ℤ) :
    (should_use_fallback o err now).2.fallback_methods = o.fallback_methods ∧
    (should_use_fallback o err now).2.fallback_usage_stats = o.fallback_usage_stats := by
  unfold should_use_fallback
  dsimp only
  constructor <;> (repeat' split) <;> rfl

/-! ## Marker helpers and concrete fixtures -/

/-- "`reasoning` starts with the fallback marker token" — the check the
spec tells callers to perform (`reasoning.startswith("[FALLBACK]")`). -/
def startsWithMarker (s : String) : Bool :=
  charsStartWith "[FALLBACK]".toList s.toList

theorem charsStartWith_append (xs zs : List Char) :
    charsStartWith xs (xs ++ zs) = true := by
  induction xs with
  | nil => rfl
  | cons a as ih => simp [charsStartWith, ih]

theorem startsWithMarker_mark (s : String) :
    startsWithMarker ("[FALLBACK] " ++ s) = true := by
  unfold startsWithMarker
  have h1 : ("[FALLBACK] " ++ s).toList = "[FALLBACK]".toList ++ (' ' :: s.toList) := by
    show ("[FALLBACK] " ++ s).data = _
    rw [String.data_append]
    rfl
  rw [h1]
  exact charsStartWith_append _ _

/-- Every successful result of `_execute_fallback` is the marker-prefixed
response of the selected method: the only other exit of the method is
its internal emergency synthesis, which never returns (its construction
raises). -/
theorem execute_fallback_ok_marker {Ctx : Type} (o : Orchestrator Ctx)
    (agent idea : String) (ctx : Option Ctx) (now : ℤ) (r : AgentResponseModel)
    (h : (execute_fallback o agent idea ctx now).2 = .ok r) :
    startsWithMarker r.reasoning = true := by
  unfold execute_fallback at h
  cases hm : get_fallback_method o.fallback_methods agent with
  | none => rw [hm] at h; cases h
  | some m =>
    rw [hm] at h
    dsimp only at h
    cases hg : m.generate agent idea ctx with
    | ok resp =>
      rw [hg] at h
      dsimp only at h
      have hr : r = { resp with reasoning := "[FALLBACK] " ++ resp.reasoning } :=
        (Except.ok.inj h).symm
      subst hr
      exact startsWithMarker_mark _
    | error msg =>
      rw [hg] at h
      dsimp only at h
      have := execute_emergency_fallback_raises
        { o with fallback_usage_stats :=
            track_fallback_usage o.fallback_usage_stats m.name false now }
        agent idea ctx
      rw [h] at this
      simp [Except.isOk, Except.toBool] at this

/-- A fallback generator that always raises (its transport failing). -/
def genFails : String → String → Option Unit → Except String AgentResponseModel :=
  fun _ _ _ => .error "connection error"

/-- A valid response as `OpenAIFallback.generate_response` can produce
one: when the provider returns parseable JSON whose `analysis` field is
an object, the construction passes pydantic validation. -/
def validOpenAIResp : AgentResponseModel :=
  { agent_type := .engineer,
    analysis := [("summary", "secondary provider analysis")],
    recommendations := ["Modern web framework", "Cloud infrastructure"],
    concerns := ["Requires market validation"],
    confidence_score := 3/25,
    reasoning := "From the secondary provider",
    supporting_data := none }

/-- An OpenAI generator on a run where the provider answers with valid
JSON (dict analysis), so construction succeeds. -/
def genOpenAIOk : String → String → Option Unit → Except String AgentResponseModel :=
  fun _ _ _ => .ok validOpenAIResp

/-- Template text for the rule-based strategy, as `_generate_from_templates`
assembles it (generic filler shown; the content never matters — the
construction raises regardless). -/
def tmplRule : RenderedTemplate :=
  { analysis := "Analysis for engineer",
    recommendations := ["Focus on core value proposition"],
    concerns := ["Requires market validation"] }

/-- Template text for the cached strategy. -/
def tmplCached : RenderedTemplate :=
  { analysis := "General analysis for engineer perspective.",
    recommendations := ["Validate approach", "Build incrementally"],
    concerns := ["Requires further analysis"] }

/-- Constructor-built orchestrator whose OpenAI client is present but
whose OpenAI calls fail (provider outage). -/
def orchOpenAIDown : Orchestrator Unit :=
  mk_orchestrator true genFails tmplRule tmplCached "general" List.dedup List.dedup

/-- Constructor-built orchestrator without an OpenAI key: the selectable
substitutes are the rule-based and cached strategies, whose generation
always raises `ValidationError`. -/
def orchNoOpenAI : Orchestrator Unit :=
  mk_orchestrator false genFails tmplRule tmplCached "general" List.dedup List.dedup

/-- Constructor-built orchestrator whose OpenAI strategy succeeds. -/
def orchOpenAIOk : Orchestrator Unit :=
  mk_orchestrator true genOpenAIOk tmplRule tmplCached "general" List.dedup List.dedup

/-- C1: a fresh orchestrator without an OpenAI key receives a
rate-limited primary; the failover is engaged
(`should_use_fallback = true`), the rule-based substitute raises
`ValidationError` at model construction, the emergency synthesis raises
the same way, and `execute_with_fallback` propagates the
`ValidationError` to the caller — the code never returns the claimed
`(response, used_fallback)` pair on this path. -/
theorem C1_fallback_path_raises :
    (should_use_fallback orchNoOpenAI (some "rate limit exceeded") 0).1 = true ∧
    (execute_with_fallback orchNoOpenAI (.error "rate limit exceeded")
        "engineer" "an idea" none 0).2 = .error pydanticValidationErrorMsg :=
  ⟨rfl, rfl⟩

/-- A primary response whose parsed `reasoning` text happens to begin
with the marker token: the primary closure returns the model-parsed
`reasoning` field verbatim (`base_agent._parse_response`), so this value
is producible by the program. -/
def primaryMarked : AgentResponseModel :=
  { agent_type := .engineer,
    analysis := [("summary", "primary analysis")],
    recommendations := ["r"],
    concerns := ["c"],
    confidence_score := 4/5,
    reasoning := "[FALLBACK] as the model phrased its own reasoning",
    supporting_data := none }

/-- C2, counterexample: a successful primary whose own reasoning begins
with the marker token is returned with `used_fallback = false`, so
"`used_fallback` iff the reasoning starts with the marker" fails in the
right-to-left direction. -/
theorem C2_marker_iff_cex :
    (execute_with_fallback orchNoOpenAI (.ok primaryMarked)
        "engineer" "an idea" none 0).2 = .ok (primaryMarked, false) ∧
    startsWithMarker primaryMarked.reasoning = true :=
  ⟨rfl, rfl⟩

/-- C2, amended: `used_fallback = false` exactly on the primary path;
every fallback-produced return carries the marker prefix (the emergency
path cannot return at all — its construction raises); hence the full
equivalence holds for every call whose primary response does not itself
begin with the marker token. -/
theorem C2_used_fallback_marker_amended {Ctx : Type} (o : Orchestrator Ctx)
    (primary : Except String AgentResponseModel) (agent idea : String)
    (ctx : Option Ctx) (now : ℤ) (r : AgentResponseModel) (b : Bool)
    (hres : (execute_with_fallback o primary agent idea ctx now).2 = .ok (r, b)) :
    (b = false ↔ o.state = .primary ∧ primary = .ok r) ∧
    (b = true → startsWithMarker r.reasoning = true) ∧
    (∀ rp, primary = .ok rp → startsWithMarker rp.reasoning = false →
      (b = true ↔ startsWithMarker r.reasoning = true)) := by
  have hemr : ∀ (o' : Orchestrator Ctx),
      ¬ ((execute_emergency_fallback o' agent idea ctx).2.map
          (fun rr => (rr, true)) = .ok (r, b)) := by
    intro o' hh
    have hko := execute_emergency_fallback_raises o' agent idea ctx
    cases hq : (execute_emergency_fallback o' agent idea ctx).2 with
    | ok x => rw [hq] at hko; simp [Except.isOk, Except.toBool] at hko
    | error msg => rw [hq] at hh; simp [Except.map] at hh
  have key : (b = false ∧ o.state = .primary ∧ primary = .ok r) ∨
      (b = true ∧ startsWithMarker r.reasoning = true ∧
        ¬ (o.state = .primary ∧ primary = .ok r)) := by
    unfold execute_with_fallback at hres
    dsimp only at hres
    by_cases hst : o.state = .primary
    · rw [if_pos hst] at hres
      cases primary with
      | ok resp =>
        dsimp only at hres
        have hinj := Except.ok.inj hres
        have hr : resp = r := by
          have := congrArg Prod.fst hinj; simpa using this
        have hb : b = false := by
          have := congrArg Prod.snd hinj; simpa using this.symm
        exact Or.inl ⟨hb, hst, by rw [hr]⟩
      | error e =>
        dsimp only at hres
        split at hres
        · cases hef : (execute_fallback (should_use_fallback o (some e) now).2 agent idea ctx now).2 with
          | ok rr =>
            rw [hef] at hres
            dsimp only at hres
            have hinj := Except.ok.inj hres
            have hr : rr = r := by
              have := congrArg Prod.fst hinj; simpa using this
            have hb : b = true := by
              have := congrArg Prod.snd hinj; simpa using this.symm
            subst hr
            refine Or.inr ⟨hb, execute_fallback_ok_marker _ _ _ _ _ _ hef, ?_⟩
            rintro ⟨_, hp⟩
            cases hp
          | error msg =>
            rw [hef] at hres
            dsimp only at hres
            exact absurd hres (hemr _)
        · exact absurd hres (hemr _)
    · rw [if_neg hst] at hres
      cases hef : (execute_fallback o agent idea ctx now).2 with
      | ok rr =>
        rw [hef] at hres
        dsimp only at hres
        have hinj := Except.ok.inj hres
        have hr : rr = r := by
          have := congrArg Prod.fst hinj; simpa using this
        have hb : b = true := by
          have := congrArg Prod.snd hinj; simpa using this.symm
        subst hr
        refine Or.inr ⟨hb, execute_fallback_ok_marker _ _ _ _ _ _ hef, ?_⟩
        rintro ⟨hs, _⟩
        exact absurd hs hst
      | error msg =>
        rw [hef] at hres
        dsimp only at hres
        exact absurd hres (hemr _)
  refine ⟨⟨fun hbf => ?_, fun hpp => ?_⟩, fun hbt => ?_, fun rp hrp hrpm => ⟨fun hbt2 => ?_, fun hm => ?_⟩⟩
  · rcases key with ⟨_, hs, hp⟩ | ⟨hb, _, _⟩
    · exact ⟨hs, hp⟩
    · rw [hbf] at hb; cases hb
  · rcases key with ⟨hb, _, _⟩ | ⟨_, _, hn⟩
    · exact hb
    · exact absurd hpp hn
  · rcases key with ⟨hb, _, _⟩ | ⟨_, hm, _⟩
    · rw [hbt] at hb; cases hb
    · exact hm
  · rcases key with ⟨hb, _, _⟩ | ⟨_, hm, _⟩
    · rw [hbt2] at hb; cases hb
    · exact hm
  · rcases key with ⟨hb, _, hp⟩ | ⟨hb, _, _⟩
    · rw [hrp] at hp
      have : rp = r := Except.ok.inj hp
      rw [this, hm] at hrpm
      cases hrpm
    · exact hb

/-- The marker-prefixed secondary-provider response produced in the C2
witness run. -/
def markedOpenAIResp : AgentResponseModel :=
  { validOpenAIResp with reasoning := "[FALLBACK] From the secondary provider" }

/-- Witness for the amended C2 at a concrete run: OpenAI key present and
the provider answering, primary rate-limited; the substitute's marked
response comes back with `used_fallback = true`. -/
theorem C2_used_fallback_marker_amended_witness :
    startsWithMarker markedOpenAIResp.reasoning = true :=
  (C2_used_fallback_marker_amended orchOpenAIOk (.error "rate limit exceeded")
    "engineer" "an idea" none 0 markedOpenAIResp true rfl).2.1 rfl

/-! ## State-transition lemmas -/

theorem should_use_fallback_state {Ctx : Type} (o : Orchestrator Ctx)
    (err : Option String) (now : ℤ) :
    (should_use_fallback o err now).2.state = o.state ∨
      ((should_use_fallback o err now).2.state = .fallback ∧ o.state = .primary) := by
  unfold should_use_fallback
  dsimp only
  repeat' split
  all_goals first
    | exact Or.inl rfl
    | simp_all

theorem execute_fallback_state {Ctx : Type} (o : Orchestrator Ctx)
    (a i : String) (c : Option Ctx) (now : ℤ) :
    (execute_fallback o a i c now).1.state = o.state ∨
      (execute_fallback o a i c now).1.state = .emergency := by
  unfold execute_fallback
  cases hm : get_fallback_method o.fallback_methods a with
  | none => exact Or.inl rfl
  | some m =>
    dsimp only
    cases hg : m.generate a i c with
    | ok r => exact Or.inl rfl
    | error e =>
      dsimp only
      right
      rw [execute_emergency_fallback_fst]

theorem execute_with_fallback_state {Ctx : Type} (o : Orchestrator Ctx)
    (p : Except String AgentResponseModel) (a i : String) (c : Option Ctx) (now : ℤ) :
    (execute_with_fallback o p a i c now).1.state = o.state ∨
      ((execute_with_fallback o p a i c now).1.state = .fallback ∧ o.state = .primary) ∨
      (execute_with_fallback o p a i c now).1.state = .emergency := by
  unfold execute_with_fallback
  dsimp only
  by_cases hst : o.state = .primary
  · rw [if_pos hst]
    cases p with
    | ok r => exact Or.inl rfl
    | error e =>
      dsimp only
      split
      · cases hef : (execute_fallback (should_use_fallback o (some e) now).2 a i c now).2 with
        | ok r =>
          dsimp only
          rcases execute_fallback_state (should_use_fallback o (some e) now).2 a i c now with h | h <;>
            rw [h]
          · rcases should_use_fallback_state o (some e) now with h2 | ⟨h2, _⟩
            · exact Or.inl h2
            · exact Or.inr (Or.inl ⟨h2, hst⟩)
          · exact Or.inr (Or.inr rfl)
        | error msg =>
          dsimp only
          rw [execute_emergency_fallback_fst]
          exact Or.inr (Or.inr rfl)
      · rw [execute_emergency_fallback_fst]
        exact Or.inr (Or.inr rfl)
  · rw [if_neg hst]
    cases hef : (execute_fallback o a i c now).2 with
    | ok r =>
      dsimp only
      rcases execute_fallback_state o a i c now with h | h
      · exact Or.inl h
      · exact Or.inr (Or.inr h)
    | error msg =>
      dsimp only
      rw [execute_emergency_fallback_fst]
      exact Or.inr (Or.inr rfl)

/-- C3: over any single orchestrator operation (hence over any sequence
of them), the state never moves EMERGENCY → FALLBACK, moves
FALLBACK → PRIMARY only through `reset_to_primary`, and
`reset_to_primary` yields state PRIMARY with a zeroed error window. -/
theorem C3_monotonic_state {Ctx : Type} (o : Orchestrator Ctx) (op : OrchOp Ctx) :
    (o.state = .emergency → (applyOp o op).state ≠ .fallback) ∧
    (o.state = .fallback → (applyOp o op).state = .primary → op = OrchOp.resetOp) ∧
    ((applyOp o OrchOp.resetOp).state = .primary ∧
      (applyOp o OrchOp.resetOp).error_count = 0 ∧
      (applyOp o OrchOp.resetOp).last_error_time = 0) := by
  refine ⟨?_, ?_, rfl, rfl, rfl⟩
  · intro hem hfb
    cases op with
    | resetOp => simp [applyOp, reset_to_primary] at hfb
    | shouldOp err now =>
      dsimp only [applyOp] at hfb
      rcases should_use_fallback_state o err now with h | ⟨_, hp⟩
      · rw [hfb, hem] at h; cases h
      · rw [hp] at hem; cases hem
    | execOp p a i c now =>
      dsimp only [applyOp] at hfb
      rcases execute_with_fallback_state o p a i c now with h | ⟨_, hp⟩ | h
      · rw [hfb, hem] at h; cases h
      · rw [hp] at hem; cases hem
      · rw [hfb] at h; cases h
  · intro hfb hpr
    cases op with
    | resetOp => rfl
    | shouldOp err now =>
      dsimp only [applyOp] at hpr
      rcases should_use_fallback_state o err now with h | ⟨h, _⟩
      · rw [hpr, hfb] at h; cases h
      · rw [hpr] at h; cases h
    | execOp p a i c now =>
      dsimp only [applyOp] at hpr
      rcases execute_with_fallback_state o p a i c now with h | ⟨h, _⟩ | h
      · rw [hpr, hfb] at h; cases h
      · rw [hpr] at h; cases h
      · rw [hpr] at h; cases h

/-- An orchestrator sitting in the EMERGENCY state. -/
def orchEmergency : Orchestrator Unit :=
  { orchOpenAIDown with state := .emergency }

/-- Witness for C3 at a concrete emergency-state orchestrator and a
concrete operation. -/
theorem C3_monotonic_state_witness :
    (applyOp orchEmergency (OrchOp.shouldOp (some "timeout error") 5)).state ≠ .fallback :=
  (C3_monotonic_state orchEmergency (OrchOp.shouldOp (some "timeout error") 5)).1 rfl

/-- C4: in the claimed scenario — state PRIMARY, error count 0, primary
raising a rate-limit error, no OpenAI key — `should_use_fallback`
answers true with no threshold wait and the state flips PRIMARY →
FALLBACK exactly as claimed, but the program then raises instead of
returning a substitute-produced response: the selected (always
available) rule-based substitute fails pydantic validation, the
emergency synthesis fails the same way (moving the state on to
EMERGENCY), and the `ValidationError` propagates to the caller. -/
theorem C4_rate_limit_fallback_raises :
    (should_use_fallback orchNoOpenAI (some "rate limit exceeded") 7).1 = true ∧
    (should_use_fallback orchNoOpenAI (some "rate limit exceeded") 7).2.state = .fallback ∧
    (execute_with_fallback orchNoOpenAI (.error "rate limit exceeded")
        "engineer" "an idea" none 7).2 = .error pydanticValidationErrorMsg ∧
    (execute_with_fallback orchNoOpenAI (.error "rate limit exceeded")
        "engineer" "an idea" none 7).1.state = .emergency :=
  ⟨rfl, rfl, rfl, rfl⟩

/-- A message classified as a transient timeout/connection error (and not
as rate-limit/quota vocabulary). -/
def TimeoutClassified (e : String) : Prop :=
  strContains (strLower e) "rate limit" = false ∧
  strContains (strLower e) "quota" = false ∧
  (strContains (strLower e) "timeout" = true ∨ strContains (strLower e) "connection" = true)

/-- C5: from state PRIMARY with error count 0, three timeout-classified
errors at times `t1 ≤ t2 ≤ t3` spanning less than 60 seconds make
`should_use_fallback` answer false, false, true, with error counts
1, 2, 3, and the third answer flips the state to FALLBACK. -/
theorem C5_timeout_threshold {Ctx : Type} (o : Orchestrator Ctx)
    (e1 e2 e3 : String) (t1 t2 t3 : ℤ)
    (hst : o.state = .primary) (hcnt : o.error_count = 0)
    (he1 : TimeoutClassified e1) (he2 : TimeoutClassified e2) (he3 : TimeoutClassified e3)
    (h12 : t1 ≤ t2) (h23 : t2 ≤ t3) (hwin : t3 - t1 < 60) :
    (should_use_fallback o (some e1) t1).1 = false ∧
    (should_use_fallback o (some e1) t1).2.error_count = 1 ∧
    (should_use_fallback (should_use_fallback o (some e1) t1).2 (some e2) t2).1 = false ∧
    (should_use_fallback (should_use_fallback o (some e1) t1).2 (some e2) t2).2.error_count = 2 ∧
    (should_use_fallback (should_use_fallback (should_use_fallback o (some e1) t1).2
        (some e2) t2).2 (some e3) t3).1 = true ∧
    (should_use_fallback (should_use_fallback (should_use_fallback o (some e1) t1).2
        (some e2) t2).2 (some e3) t3).2.error_count = 3 ∧
    (should_use_fallback (should_use_fallback (should_use_fallback o (some e1) t1).2
        (some e2) t2).2 (some e3) t3).2.state = .fallback := by
  obtain ⟨hrl1, hq1, ht1⟩ := he1
  obtain ⟨hrl2, hq2, ht2⟩ := he2
  obtain ⟨hrl3, hq3, ht3⟩ := he3
  have hs1 : should_use_fallback o (some e1) t1 =
      (false, { o with error_count := 1, last_error_time := t1 }) := by
    unfold should_use_fallback
    rw [if_neg (by simp [hcnt, api_error_threshold]), if_neg (by simp [hst])]
    dsimp only
    rw [if_neg (by simp [hrl1, hq1]), if_pos (by rcases ht1 with h | h <;> simp [h]), hcnt]
    simp only [Nat.zero_add, ite_self]
    rw [if_neg (by decide)]
  have hs2 : should_use_fallback { o with error_count := 1, last_error_time := t1 }
        (some e2) t2 =
      (false, { o with error_count := 2, last_error_time := t2 }) := by
    unfold should_use_fallback
    rw [if_neg (by simp [api_error_threshold]), if_neg (by simp [hst])]
    dsimp only
    rw [if_neg (by simp [hrl2, hq2]), if_pos (by rcases ht2 with h | h <;> simp [h])]
    rw [if_pos (by omega : t2 - t1 < 60)]
    rw [if_neg (by decide)]
  have hs3 : should_use_fallback { o with error_count := 2, last_error_time := t2 }
        (some e3) t3 =
      (true, { o with state := .fallback, error_count := 3, last_error_time := t3 }) := by
    unfold should_use_fallback
    rw [if_neg (by simp [api_error_threshold]), if_neg (by simp [hst])]
    dsimp only
    rw [if_neg (by simp [hrl3, hq3]), if_pos (by rcases ht3 with h | h <;> simp [h])]
    rw [if_pos (by omega : t3 - t2 < 60)]
    rw [if_pos (by decide)]
  rw [hs1, hs2, hs3]
  exact ⟨rfl, rfl, rfl, rfl, rfl, rfl, rfl⟩

/-- Witness for C5 at a concrete run: three "request timeout" errors at
times 0, 10, 20 from a fresh orchestrator. -/
theorem C5_timeout_threshold_witness :
    (should_use_fallback orchNoOpenAI (some "Request timeout") 0).1 = false ∧
    (should_use_fallback orchNoOpenAI (some "Request timeout") 0).2.error_count = 1 ∧
    (should_use_fallback (should_use_fallback orchNoOpenAI (some "Request timeout") 0).2
        (some "Request timeout") 10).1 = false ∧
    (should_use_fallback (should_use_fallback orchNoOpenAI (some "Request timeout") 0).2
        (some "Request timeout") 10).2.error_count = 2 ∧
    (should_use_fallback (should_use_fallback (should_use_fallback orchNoOpenAI
        (some "Request timeout") 0).2 (some "Request timeout") 10).2
        (some "Request timeout") 20).1 = true ∧
    (should_use_fallback (should_use_fallback (should_use_fallback orchNoOpenAI
        (some "Request timeout") 0).2 (some "Request timeout") 10).2
        (some "Request timeout") 20).2.error_count = 3 ∧
    (should_use_fallback (should_use_fallback (should_use_fallback orchNoOpenAI
        (some "Request timeout") 0).2 (some "Request timeout") 10).2
        (some "Request timeout") 20).2.state = .fallback :=
  C5_timeout_threshold orchNoOpenAI "Request timeout" "Request timeout" "Request timeout"
    0 10 20 rfl rfl ⟨rfl, rfl, Or.inl rfl⟩ ⟨rfl, rfl, Or.inl rfl⟩ ⟨rfl, rfl, Or.inl rfl⟩
    (by decide) (by decide) (by decide)

/-! ## Emergency-entry characterization (C6) -/

/-- Whether the fallback execution path, for the current method table,
ends in the emergency synthesis: either no method is selectable or the
selected method's generation raises. -/
def fallbackGoesEmergency {Ctx : Type} (o : Orchestrator Ctx)
    (agent idea : String) (ctx : Option Ctx) : Bool :=
  match get_fallback_method o.fallback_methods agent with
  | none => true
  | some m => !(m.generate agent idea ctx).isOk

theorem execute_fallback_of_not_emer {Ctx : Type} (o : Orchestrator Ctx)
    (a i : String) (c : Option Ctx) (now : ℤ)
    (h : fallbackGoesEmergency o a i c = false) :
    (execute_fallback o a i c now).2.isOk = true ∧
    (execute_fallback o a i c now).1.state = o.state := by
  unfold fallbackGoesEmergency at h
  unfold execute_fallback
  cases hm : get_fallback_method o.fallback_methods a with
  | none => rw [hm] at h; simp at h
  | some m =>
    rw [hm] at h
    dsimp only at h ⊢
    cases hg : m.generate a i c with
    | ok r => exact ⟨rfl, rfl⟩
    | error e => rw [hg] at h; simp [Except.isOk, Except.toBool] at h

theorem execute_fallback_of_emer {Ctx : Type} (o : Orchestrator Ctx)
    (a i : String) (c : Option Ctx) (now : ℤ)
    (h : fallbackGoesEmergency o a i c = true) (r : AgentResponseModel)
    (hr : (execute_fallback o a i c now).2 = .ok r) :
    (execute_fallback o a i c now).1.state = .emergency := by
  unfold fallbackGoesEmergency at h
  unfold execute_fallback at hr ⊢
  cases hm : get_fallback_method o.fallback_methods a with
  | none => rw [hm] at hr; simp at hr
  | some m =>
    rw [hm] at h hr
    dsimp only at h hr ⊢
    cases hg : m.generate a i c with
    | ok resp => rw [hg] at h; simp [Except.isOk, Except.toBool] at h
    | error e =>
      dsimp only
      rw [execute_emergency_fallback_fst]

/-- C6, counterexample: with a fresh constructor-built orchestrator, a
primary failure whose message matches no trigger vocabulary makes
`should_use_fallback` answer false, and yet `execute_with_fallback`
moves the state to EMERGENCY (the re-raised error is caught by the
function's own outer handler and routed to emergency synthesis). -/
theorem C6_emergency_entry_cex :
    (should_use_fallback orchNoOpenAI (some "boom") 0).1 = false ∧
    (execute_with_fallback orchNoOpenAI (.error "boom") "engineer" "an idea" none 0).1.state =
      .emergency :=
  ⟨rfl, rfl⟩

/-- C6, amended: the state after `execute_with_fallback` is EMERGENCY
exactly when the orchestrator was already in EMERGENCY, or the fallback
path itself went emergency (no selectable method, or the selected method
raised), or — additionally to the claim — the primary failed while in
PRIMARY and `should_use_fallback` declined the failover, in which case
the re-raised error is caught by the outer handler and routed to the
emergency synthesis. -/
theorem C6_emergency_entry_amended {Ctx : Type} (o : Orchestrator Ctx)
    (e agent idea : String) (ctx : Option Ctx) (now : ℤ) (r : AgentResponseModel) :
    ((execute_with_fallback o (.ok r) agent idea ctx now).1.state = .emergency ↔
      (o.state = .emergency ∨
        (o.state ≠ .primary ∧ fallbackGoesEmergency o agent idea ctx = true))) ∧
    ((execute_with_fallback o (.error e) agent idea ctx now).1.state = .emergency ↔
      (o.state = .emergency ∨
        (o.state ≠ .primary ∧ fallbackGoesEmergency o agent idea ctx = true) ∨
        (o.state = .primary ∧
          ((should_use_fallback o (some e) now).1 = false ∨
            fallbackGoesEmergency (should_use_fallback o (some e) now).2 agent idea ctx = true)))) := by
  have tail : ∀ (oc : Orchestrator Ctx), oc.state ≠ .emergency →
      ((match (execute_fallback oc agent idea ctx now).2 with
        | Except.ok rr => ((execute_fallback oc agent idea ctx now).1, Except.ok (rr, true))
        | Except.error _ =>
          ((execute_emergency_fallback (execute_fallback oc agent idea ctx now).1 agent idea ctx).1,
            Except.map (fun rr => (rr, true))
              (execute_emergency_fallback (execute_fallback oc agent idea ctx now).1 agent idea ctx).2)).1.state
          = .emergency
        ↔ fallbackGoesEmergency oc agent idea ctx = true) := by
    intro oc hoc
    cases hef : (execute_fallback oc agent idea ctx now).2 with
    | ok rr =>
      dsimp only
      cases hge : fallbackGoesEmergency oc agent idea ctx with
      | false =>
        have := (execute_fallback_of_not_emer oc agent idea ctx now hge).2
        rw [this]
        simp [hoc]
      | true =>
        have := execute_fallback_of_emer oc agent idea ctx now hge rr hef
        rw [this]
        simp
    | error msg =>
      dsimp only
      rw [execute_emergency_fallback_fst]
      simp only [true_iff]
      cases hge : fallbackGoesEmergency oc agent idea ctx with
      | false =>
        have := (execute_fallback_of_not_emer oc agent idea ctx now hge).1
        rw [hef] at this
        cases this
      | true => rfl
  constructor
  · unfold execute_with_fallback
    dsimp only
    by_cases hst : o.state = .primary
    · rw [if_pos hst]
      dsimp only
      constructor
      · intro h
        rw [hst] at h
        cases h
      · rintro (h | ⟨hne, _⟩)
        · rw [hst] at h; cases h
        · exact absurd hst hne
    · rw [if_neg hst]
      by_cases hoe : o.state = .emergency
      · constructor
        · intro _; exact Or.inl hoe
        · intro _
          cases hef : (execute_fallback o agent idea ctx now).2 with
          | ok rr =>
            dsimp only
            rcases execute_fallback_state o agent idea ctx now with h | h <;> rw [h]
            exact hoe
          | error msg =>
            dsimp only
            rw [execute_emergency_fallback_fst]
      · rw [tail o hoe]
        constructor
        · intro h; exact Or.inr ⟨hst, h⟩
        · rintro (h | ⟨_, h⟩)
          · exact absurd h hoe
          · exact h
  · unfold execute_with_fallback
    dsimp only
    by_cases hst : o.state = .primary
    · rw [if_pos hst]
      have hsfst : (should_use_fallback o (some e) now).2.state ≠ .emergency := by
        rcases should_use_fallback_state o (some e) now with h | ⟨h, _⟩ <;> rw [h]
        · rw [hst]; intro hx; cases hx
        · intro hx; cases hx
      split
      next hcond =>
        rw [tail _ hsfst]
        constructor
        · intro h
          exact Or.inr (Or.inr ⟨hst, Or.inr h⟩)
        · rintro (h | ⟨hne, _⟩ | ⟨_, hsf | h⟩)
          · rw [hst] at h; cases h
          · exact absurd hst hne
          · rw [hcond] at hsf; cases hsf
          · exact h
      next hcond =>
        rw [execute_emergency_fallback_fst]
        constructor
        · intro _
          exact Or.inr (Or.inr ⟨hst, Or.inl (Bool.eq_false_iff.mpr hcond)⟩)
        · intro _
          rfl
    · rw [if_neg hst]
      by_cases hoe : o.state = .emergency
      · constructor
        · intro _; exact Or.inl hoe
        · intro _
          cases hef : (execute_fallback o agent idea ctx now).2 with
          | ok rr =>
            dsimp only
            rcases execute_fallback_state o agent idea ctx now with h | h <;> rw [h]
            exact hoe
          | error msg =>
            dsimp only
            rw [execute_emergency_fallback_fst]
      · rw [tail o hoe]
        constructor
        · intro h; exact Or.inr (Or.inl ⟨hst, h⟩)
        · rintro (h | ⟨_, h⟩ | ⟨h, _⟩)
          · exact absurd h hoe
          · exact h
          · exact absurd h hst

/-- Witness for the amended C6 at a concrete run: the should-false
primary failure drives a fresh orchestrator into EMERGENCY. -/
theorem C6_emergency_entry_amended_witness :
    (execute_with_fallback orchNoOpenAI (.error "boom") "engineer" "an idea" none 0).1.state =
      .emergency :=
  ((C6_emergency_entry_amended orchNoOpenAI "boom" "engineer" "an idea" none 0
      validOpenAIResp).2).mpr
    (Or.inr (Or.inr ⟨rfl, Or.inl rfl⟩))

/-! ## Purity of `should_use_fallback` (C7) -/

/-- C7, counterexample: invoking `should_use_fallback` on a fresh
orchestrator with a rate-limit error mutates the orchestrator's state
from PRIMARY to FALLBACK, so the function is not a pure decision. -/
theorem C7_should_use_fallback_pure_cex :
    orchNoOpenAI.state = .primary ∧
    (should_use_fallback orchNoOpenAI (some "rate limit exceeded") 0).2.state = .fallback :=
  ⟨rfl, rfl⟩

/-- C7, amended: `should_use_fallback` is a deterministic function of the
current state, error window, error message and clock, and it never
touches the method table or the usage statistics; but it is not
invocation-transparent: in state PRIMARY below the error threshold it
mutates the orchestrator — a rate-limit/quota error sets the state to
FALLBACK, and a timeout/connection error rewrites `error_count` and
`last_error_time` (escalating to FALLBACK at the threshold).  Outside
state PRIMARY, at or above the threshold, without an error, or with an
error carrying none of the four vocabulary substrings, the orchestrator
is left unchanged; and both the decision and the mutated fields depend
only on the state, the error window (`error_count`, `last_error_time`),
the error message and the clock. -/
theorem C7_should_use_fallback_amended {Ctx : Type} (o : Orchestrator Ctx)
    (err : Option String) (now : ℤ) :
    (should_use_fallback o err now).2.fallback_methods = o.fallback_methods ∧
    (should_use_fallback o err now).2.fallback_usage_stats = o.fallback_usage_stats ∧
    (o.state ≠ .primary → (should_use_fallback o err now).2 = o) ∧
    (o.error_count ≥ api_error_threshold → (should_use_fallback o err now).2 = o) ∧
    (err = none → (should_use_fallback o err now).2 = o) ∧
    (∀ e, err = some e → o.state = .primary → o.error_count < api_error_threshold →
      (strContains (strLower e) "rate limit" = true ∨ strContains (strLower e) "quota" = true) →
      (should_use_fallback o err now).2 = { o with state := .fallback }) ∧
    (∀ e, err = some e → o.state = .primary → o.error_count < api_error_threshold →
      strContains (strLower e) "rate limit" = false →
      strContains (strLower e) "quota" = false →
      (strContains (strLower e) "timeout" = true ∨ strContains (strLower e) "connection" = true) →
      (should_use_fallback o err now).2.last_error_time = now ∧
      (should_use_fallback o err now).2.error_count =
        (if now - o.last_error_time < 60 then o.error_count + 1 else 1)) ∧
    (∀ e, err = some e →
      strContains (strLower e) "rate limit" = false →
      strContains (strLower e) "quota" = false →
      strContains (strLower e) "timeout" = false →
      strContains (strLower e) "connection" = false →
      (should_use_fallback o err now).2 = o) ∧
    (∀ o2 : Orchestrator Ctx, o2.state = o.state → o2.error_count = o.error_count →
      o2.last_error_time = o.last_error_time →
      (should_use_fallback o2 err now).1 = (should_use_fallback o err now).1 ∧
      (should_use_fallback o2 err now).2.state = (should_use_fallback o err now).2.state ∧
      (should_use_fallback o2 err now).2.error_count =
        (should_use_fallback o err now).2.error_count ∧
      (should_use_fallback o2 err now).2.last_error_time =
        (should_use_fallback o err now).2.last_error_time) := by
  refine ⟨(should_use_fallback_frame o err now).1, (should_use_fallback_frame o err now).2,
    ?_, ?_, ?_, ?_, ?_, ?_, ?_⟩
  · intro h
    unfold should_use_fallback
    repeat' split
    all_goals simp_all
  · intro h
    unfold should_use_fallback
    rw [if_pos h]
  · rintro rfl
    unfold should_use_fallback
    repeat' split
    all_goals first | rfl | simp_all
  · rintro e rfl hst hcnt hvocab
    unfold should_use_fallback
    rw [if_neg (by omega), if_neg (by simp [hst])]
    dsimp only
    rw [if_pos (by rcases hvocab with h | h <;> simp [h])]
  · rintro e rfl hst hcnt hrl hq hto
    unfold should_use_fallback
    rw [if_neg (by omega), if_neg (by simp [hst])]
    dsimp only
    rw [if_neg (by simp [hrl, hq]), if_pos (by rcases hto with h | h <;> simp [h])]
    split <;> split <;> exact ⟨rfl, rfl⟩
  · rintro e rfl h1 h2 h3 h4
    unfold should_use_fallback
    repeat' split
    all_goals first | rfl | simp_all
  · intro o2 hs hc ht
    unfold should_use_fallback
    rw [hs, hc, ht]
    by_cases h1 : o.error_count ≥ api_error_threshold
    · rw [if_pos h1, if_pos h1]
      refine ⟨rfl, ?_, ?_, ?_⟩ <;> first | rfl | exact hs | exact hc | exact ht
    · rw [if_neg h1, if_neg h1]
      by_cases h2 : o.state ≠ .primary
      · rw [if_pos h2, if_pos h2]
        refine ⟨rfl, ?_, ?_, ?_⟩ <;> first | rfl | exact hs | exact hc | exact ht
      · rw [if_neg h2, if_neg h2]
        cases err with
        | none => refine ⟨rfl, ?_, ?_, ?_⟩ <;> first | rfl | exact hs | exact hc | exact ht
        | some e =>
          dsimp only
          by_cases h3 : (strContains (strLower e) "rate limit" ||
              strContains (strLower e) "quota") = true
          · rw [if_pos h3, if_pos h3]
            exact ⟨rfl, rfl, rfl, rfl⟩
          · rw [if_neg h3, if_neg h3]
            by_cases h4 : (strContains (strLower e) "timeout" ||
                strContains (strLower e) "connection") = true
            · rw [if_pos h4, if_pos h4]
              by_cases h5 :
                  (if now - o.last_error_time < 60 then o.error_count + 1 else 1) ≥
                    api_error_threshold
              · rw [if_pos h5, if_pos h5]
                exact ⟨rfl, rfl, rfl, rfl⟩
              · rw [if_neg h5, if_neg h5]
                exact ⟨rfl, rfl, rfl, rfl⟩
            · rw [if_neg h4, if_neg h4]
              refine ⟨rfl, ?_, ?_, ?_⟩ <;> first | rfl | exact hs | exact hc | exact ht

/-- Witness for the amended C7 at a concrete input: from a non-PRIMARY
state the call leaves the orchestrator untouched. -/
theorem C7_should_use_fallback_amended_witness :
    (should_use_fallback orchEmergency (some "timeout") 3).2 = orchEmergency :=
  (C7_should_use_fallback_amended orchEmergency (some "timeout") 3).2.2.1 (by decide)

/-! ## Total outage (C8) -/

theorem findPreferred_none {Ctx : Type} (ms : List (FallbackStrategy × FallbackMethod Ctx))
    (h : ∀ p ∈ ms, p.2.available = false) :
    ∀ order, findPreferred ms order = none := by
  intro order
  induction order with
  | nil => rfl
  | cons s rest ih =>
    unfold findPreferred
    cases hl : lookupMethod ms s with
    | none => exact ih
    | some m =>
      have hmem : m.available = false := by
        unfold lookupMethod at hl
        cases hf : ms.find? (fun p => p.1 = s) with
        | none => rw [hf] at hl; cases hl
        | some p =>
          rw [hf] at hl
          have := h p (List.mem_of_find?_eq_some hf)
          cases hl
          exact this
      simp [hmem, ih]

theorem get_fallback_method_unavailable {Ctx : Type}
    (ms : List (FallbackStrategy × FallbackMethod Ctx))
    (h : ∀ p ∈ ms, p.2.available = false) (a : String) :
    get_fallback_method ms a = none := by
  unfold get_fallback_method
  split
  · rfl
  · rw [findPreferred_none ms h FALLBACK_ORDER]
    rw [List.find?_eq_none]
    intro m hm
    rw [List.mem_map] at hm
    obtain ⟨p, hp, rfl⟩ := hm
    rw [h p hp]
    exact Bool.false_ne_true

/-- A rule-based method whose `is_available` has been stubbed to report
false — the hypothetical total-outage configuration of the spec's
scenario 8 (not producible by the constructor, whose rule-based and
cached strategies always report available; cf. the C10 theorem). -/
def downMethod : FallbackMethod Unit :=
  { name := "RuleBasedFallback", available := false, generate := genFails,
    confidence := 1/2 }

/-- An orchestrator whose only registered method reports unavailable. -/
def orchAllDown : Orchestrator Unit :=
  { state := .primary,
    fallback_methods := [(FallbackStrategy.rule_based, downMethod)],
    error_count := 0, last_error_time := 0, fallback_usage_stats := [] }

/-- C8: in a total outage — every registered method reporting
unavailable, here exhibited concretely — no fallback method is
selectable, so the failing primary is routed to the emergency synthesis;
that synthesis *always fails* (its `AgentResponseModel` construction
passes string `analysis`/`supporting_data` payloads against
`Dict[str, Any]` fields), and `execute_with_fallback` propagates the
`ValidationError` instead of returning a `confidence_score = 0.1`
response. -/
theorem C8_total_outage_raises :
    (∀ p ∈ orchAllDown.fallback_methods, p.2.available = false) ∧
    get_fallback_method orchAllDown.fallback_methods "designer" = none ∧
    (execute_emergency_fallback orchAllDown "designer" "an idea" none).2 =
      .error pydanticValidationErrorMsg ∧
    (execute_with_fallback orchAllDown (.error "service unavailable")
        "designer" "an idea" none 0).2 = .error pydanticValidationErrorMsg :=
  ⟨by intro p hp; rcases List.mem_singleton.mp hp with rfl; rfl, rfl, rfl, rfl⟩

/-! ## Hybrid combination (C9) -/

/-- A first valid sub-response for the hybrid combiner (as the
secondary-provider strategy can produce one: dict analysis). -/
def vA : AgentResponseModel :=
  { agent_type := .risk_analyst, analysis := [("summary", "sub-analysis one")],
    recommendations := ["Start small"], concerns := ["X"],
    confidence_score := 1/2, reasoning := "ra", supporting_data := none }

/-- A second valid sub-response for the hybrid combiner. -/
def vB : AgentResponseModel :=
  { agent_type := .risk_analyst, analysis := [("summary", "sub-analysis two")],
    recommendations := ["Build MVP"], concerns := ["Y"],
    confidence_score := 3/10, reasoning := "rb", supporting_data := none }

/-- A wrapped sub-method that succeeds with `vA`. -/
def mA : FallbackMethod Unit :=
  { name := "OpenAIFallback", available := true,
    generate := fun _ _ _ => .ok vA, confidence := 4/5 }

/-- A wrapped sub-method that succeeds with `vB`. -/
def mB : FallbackMethod Unit :=
  { name := "OpenAIFallback", available := true,
    generate := fun _ _ _ => .ok vB, confidence := 4/5 }

/-- C9: when `_combine_responses` receives exactly two successful
sub-responses it never returns the claimed combination: the responses'
`analysis` fields are dicts, so `". ".join(analysis_parts[:2])` raises
`TypeError` (and were every analysis empty, the resulting *string*
`combined_analysis` would fail pydantic validation of the
`Dict[str, Any]`-typed `analysis` field instead).  The same failure
surfaces through `HybridFallback.generate_response` with two available,
succeeding sub-strategies — so no combined response with the claimed
bounds and confidence ever exists. -/
theorem C9_combine_raises :
    combine_responses (fun l => List.dedup l) (fun l => List.dedup l) [vA, vB] =
      .error pyJoinTypeErrorMsg ∧
    hybrid_generate (fun l => List.dedup l) (fun l => List.dedup l) [mA, mB]
      "risk_analyst" "an idea" none = .error pyJoinTypeErrorMsg ∧
    combine_responses (fun l => List.dedup l) (fun l => List.dedup l)
      [{ vA with analysis := [] }, { vB with analysis := [] }] =
      .error pydanticValidationErrorMsg :=
  ⟨rfl, rfl, rfl⟩

/-! ## Constructor guarantees (C10) -/

theorem AgentType.ofString_error (a msg : String)
    (h : AgentType.ofString a = .error msg) :
    msg = "invalid agent type: " ++ a := by
  unfold AgentType.ofString at h
  split at h
  all_goals cases h
  rfl

theorem invalid_agent_ne_noFallback (a : String) :
    ("invalid agent type: " ++ a) ≠ "No fallback methods available" := by
  intro h
  have h1 : ("invalid agent type: " ++ a).data.head? = some 'i' := by
    rw [String.data_append]; rfl
  rw [h] at h1
  exact absurd h1 (by decide)

/-- Every error raised out of `_execute_fallback` is either the
"no methods" `RuntimeError` (with no method selectable), the `AgentType`
coercion error, or the `ValidationError` from the emergency constructor
— never anything else. -/
theorem execute_fallback_error_shape {Ctx : Type} (o : Orchestrator Ctx)
    (a i : String) (c : Option Ctx) (now : ℤ) (s : String)
    (h : (execute_fallback o a i c now).2 = .error s) :
    (get_fallback_method o.fallback_methods a = none ∧ s = "No fallback methods available") ∨
    s = "invalid agent type: " ++ a ∨ s = pydanticValidationErrorMsg := by
  unfold execute_fallback at h
  cases hm : get_fallback_method o.fallback_methods a with
  | none =>
    rw [hm] at h
    dsimp only at h
    exact Or.inl ⟨rfl, (Except.error.inj h).symm⟩
  | some m =>
    rw [hm] at h
    dsimp only at h
    cases hg : m.generate a i c with
    | ok r => rw [hg] at h; simp at h
    | error e =>
      rw [hg] at h
      dsimp only at h
      unfold execute_emergency_fallback at h
      cases ha : AgentType.ofString a with
      | ok t =>
        rw [ha] at h
        dsimp only [mkAgentResponseModel] at h
        exact Or.inr (Or.inr (Except.error.inj h).symm)
      | error msg =>
        rw [ha] at h
        dsimp only at h
        refine Or.inr (Or.inl ?_)
        rw [← (Except.error.inj h)]
        exact AgentType.ofString_error a msg ha

theorem pydanticMsg_ne_noFallback :
    pydanticValidationErrorMsg ≠ "No fallback methods available" := by
  decide

/-- C10: for every orchestrator whose method table came from the
constructor, the rule-based and cached-responses strategies are
registered and report available, `get_fallback_method` never returns
`None`, and consequently the "No fallback methods available" error
branch of `_execute_fallback` is unreachable (the errors that DO escape
it are the emergency constructor's, cf. C8). -/
theorem C10_rule_cached_always_available {Ctx : Type} (op : Bool)
    (og : String → String → Option Ctx → Except String AgentResponseModel)
    (rs cs : RenderedTemplate) (cp : String)
    (dr dc : List String → List String) (agent idea : String) (ctx : Option Ctx)
    (now : ℤ) (o : Orchestrator Ctx)
    (ho : o.fallback_methods = init_fallback_methods op og rs cs cp dr dc) :
    lookupMethod o.fallback_methods .rule_based =
      some { name := "RuleBasedFallback", available := true,
             generate := rule_based_generate rs, confidence := 1/2 } ∧
    lookupMethod o.fallback_methods .cached_responses =
      some { name := "CachedResponsesFallback", available := true,
             generate := cached_responses_generate cs cp, confidence := 2/5 } ∧
    (get_fallback_method o.fallback_methods agent).isSome = true ∧
    (∀ s, (execute_fallback o agent idea ctx now).2 = .error s →
      s ≠ "No fallback methods available") := by
  have hgf : (get_fallback_method (init_fallback_methods op og rs cs cp dr dc) agent).isSome
      = true := by
    cases op <;> rfl
  refine ⟨?_, ?_, ?_, ?_⟩
  · rw [ho]; cases op <;> rfl
  · rw [ho]; cases op <;> rfl
  · rw [ho]; exact hgf
  · intro s hs
    rcases execute_fallback_error_shape o agent idea ctx now s hs with ⟨hn, _⟩ | hinv | hval
    · rw [ho] at hn
      rw [hn] at hgf
      cases hgf
    · rw [hinv]
      exact invalid_agent_ne_noFallback agent
    · rw [hval]
      exact pydanticMsg_ne_noFallback

/-- Witness for C10 on the concrete constructor-built orchestrator
without an OpenAI key. -/
theorem C10_rule_cached_always_available_witness :
    lookupMethod orchNoOpenAI.fallback_methods .rule_based =
      some { name := "RuleBasedFallback", available := true,
             generate := rule_based_generate tmplRule, confidence := 1/2 } ∧
    lookupMethod orchNoOpenAI.fallback_methods .cached_responses =
      some { name := "CachedResponsesFallback", available := true,
             generate := cached_responses_generate tmplCached "general", confidence := 2/5 } ∧
    (get_fallback_method orchNoOpenAI.fallback_methods "engineer").isSome = true ∧
    (∀ s, (execute_fallback orchNoOpenAI "engineer" "an idea" none 0).2 = .error s →
      s ≠ "No fallback methods available") :=
  C10_rule_cached_always_available false genFails tmplRule tmplCached "general"
    List.dedup List.dedup "engineer" "an idea" none 0 orchNoOpenAI rfl

end DemoBack
